import Mathlib

/-!
Verification of the chart configuration and data-transformation pipeline of
the titer/assay dashboard (src/dashboard.py) against its specification.

The embedding models the working table as a column list plus rows of
(column, value) cells; pandas operations (date filtering, groupby/size,
groupby/agg-mean) are translated step by step, and steps that can raise a
Python exception return Except. Plotly figure construction is modelled as a
record of the arguments the dashboard passes to the plotting calls.
-/

namespace Dashboard

/-- A cell value of the working table: a string, an exact numeric value, or a
timestamp split into a calendar day index and a time-of-day fraction. -/
inductive Val where
  | vstr (s : String)
  | vnum (q : ℚ)
  | vdate (day : ℤ) (tod : ℚ)
deriving DecidableEq, Repr

/-- One row: its cells in column order. -/
abbrev Row := List (String × Val)

/-- A data frame: the column list plus the rows. -/
structure DF where
  cols : List String
  rows : List Row
deriving DecidableEq, Repr

/-- Cell of a row at a column name. -/
def cellOf (r : Row) (c : String) : Option Val :=
  List.lookup c r

/-- dashboard.py lines 65-67: the option list of the group-by multiselect.
The base list already contains "Result"; the Results Count case appends a
second copy. -/
def select_grouping_options (y_axis : String) : List String :=
  let options := ["Testdate", "GMT", "Assay", "Result"]
  if y_axis = "Results Count" then options ++ ["Result"] else options

/-- Modelled from the spec: the multiselect widget belongs to the external UI
toolkit, whose code is not part of the repository; per the spec its returned
selection is an order-preserving, duplicate-free pick from the option list. -/
def multiselect_returns (options sel : List String) : Prop :=
  sel.Sublist options ∧ sel.Nodup

/-- The group key of a row for the grouping columns: the cell values in
column order. A missing cell yields a placeholder value; it cannot occur
once the grouping columns have been checked to be columns of the frame. -/
def keyOf (gb : List String) (r : Row) : List Val :=
  gb.map fun c => (cellOf r c).getD (Val.vstr "")

/-- A linear order on cell values, used for the sorted group keys. Columns
are homogeneous in practice; across constructors the order is by
constructor. -/
def valLe (a b : Val) : Bool :=
  match a, b with
  | .vstr x, .vstr y => decide (x ≤ y)
  | .vstr _, _ => true
  | .vnum _, .vstr _ => false
  | .vnum x, .vnum y => decide (x ≤ y)
  | .vnum _, .vdate _ _ => true
  | .vdate _ _, .vstr _ => false
  | .vdate _ _, .vnum _ => false
  | .vdate d t, .vdate e u => decide (d < e ∨ (d = e ∧ t ≤ u))

/-- Lexicographic order on group keys. -/
def keyLe : List Val → List Val → Bool
  | [], _ => true
  | _ :: _, [] => false
  | a :: as, b :: bs => if a = b then keyLe as bs else valLe a b

/-- The distinct group keys of the rows, sorted (pandas groupby sorts the
group keys). -/
def groupKeys (gb : List String) (rows : List Row) : List (List Val) :=
  ((rows.map (keyOf gb)).dedup).mergeSort keyLe

/-- The rows belonging to one group key. -/
def groupRows (gb : List String) (rows : List Row) (k : List Val) : List Row :=
  rows.filter fun r => decide (keyOf gb r = k)

/-- The cells recording a group key in the aggregated output
(reset_index turns the group keys back into leading columns). -/
def keyCells (gb : List String) (k : List Val) : Row :=
  gb.zip k

/-- dashboard.py line 140 (and 176):
df.groupby(group_by).size().reset_index(name='Results Count') — one output
row per distinct group key, holding the key and the size of the group. -/
def sizeAgg (gb : List String) (df : DF) : DF :=
  { cols := gb ++ ["Results Count"],
    rows := (groupKeys gb df.rows).map fun k =>
      keyCells gb k ++ [("Results Count", Val.vnum ((groupRows gb df.rows k).length : ℚ))] }

/-- The numeric content of a cell; pandas mean aggregation raises on
non-numeric data. -/
def numCell (r : Row) (c : String) : Except String ℚ :=
  match cellOf r c with
  | some (Val.vnum q) => Except.ok q
  | _ => Except.error "TypeError"

/-- The arithmetic mean of a column over a list of rows. -/
def colMean (rows : List Row) (c : String) : Except String ℚ :=
  (rows.mapM fun r => numCell r c).map fun qs => qs.sum / (qs.length : ℚ)

/-- dashboard.py line 142 (and 179):
df.groupby(group_by).agg({c: 'mean', ...}).reset_index() — one output row
per distinct group key, each aggregation target replaced by its mean in the
group. Pandas raises KeyError when an aggregation target is not a column or
is itself a grouping key (the group keys are moved to the index). -/
def meanAgg (gb : List String) (cs : List String) (df : DF) : Except String DF :=
  if cs.all fun c => df.cols.contains c && !(gb.contains c) then
    ((groupKeys gb df.rows).mapM fun k =>
        ((cs.mapM fun c => (colMean (groupRows gb df.rows k) c).map fun m =>
            (c, Val.vnum m)).map
          fun cells => keyCells gb k ++ cells)).map
      fun rs => { cols := gb ++ cs, rows := rs }
  else Except.error "KeyError"

/-- dashboard.py line 142: the fixed aggregation targets of the pre-defined
flow. -/
def aggColumns : List String :=
  ["Age Days", "Age Weeks", "Min Titer", "Max Titer", "Mean Titer"]

/-- dashboard.py lines 138-142: the aggregation step of create_chart. An
empty grouping skips aggregation; a grouping column absent from the frame
makes groupby raise KeyError. -/
def aggregate (df : DF) (group_by : List String) (y_axis : String) :
    Except String DF :=
  if group_by = [] then Except.ok df
  else if group_by.all df.cols.contains then
    if y_axis = "Results Count" then Except.ok (sizeAgg group_by df)
    else meanAgg group_by aggColumns df
  else Except.error "KeyError"

/-- dashboard.py lines 174-179: the aggregation step of custom_chart. The
counting branch is taken when the selected y axis is the column "Result",
and it renames the y axis to "Results Count"; any other y axis is averaged
on its own. -/
def customAggregate (df : DF) (group_by : List String) (y_axis : String) :
    Except String (DF × String) :=
  if group_by = [] then Except.ok (df, y_axis)
  else if group_by.all df.cols.contains then
    if y_axis = "Result" then Except.ok (sizeAgg group_by df, "Results Count")
    else (meanAgg group_by [y_axis] df).map fun out => (out, y_axis)
  else Except.error "KeyError"

/-- Modelled from the spec, for comparison in C2 only: the spec's custom
aggregation counts exactly when the y axis equals "Results Count" and
otherwise averages only the selected y-axis column. -/
def customAggregateClaimed (df : DF) (group_by : List String) (y_axis : String) :
    Except String DF :=
  if group_by = [] then Except.ok df
  else if group_by.all df.cols.contains then
    if y_axis = "Results Count" then Except.ok (sizeAgg group_by df)
    else meanAgg group_by [y_axis] df
  else Except.error "KeyError"

/-- The calendar day of a row's Testdate cell, when that cell is a
timestamp. -/
def rowDate (r : Row) : Option ℤ :=
  match cellOf r "Testdate" with
  | some (Val.vdate d _) => some d
  | _ => none

/-- The row predicate of the date filter: the calendar date lies in the
inclusive range (the time of day is dropped by .dt.date); a row without a
timestamp is not kept. -/
def inDateRange (lo hi : ℤ) (r : Row) : Bool :=
  match rowDate r with
  | some d => decide (lo ≤ d ∧ d ≤ hi)
  | none => false

/-- dashboard.py line 137 (and 173):
df[df['Testdate'].dt.date.between(lo, hi)]. -/
def filter_by_date (df : DF) (lo hi : ℤ) : DF :=
  { cols := df.cols, rows := df.rows.filter (inDateRange lo hi) }

/-- dashboard.py lines 95-96: the full min/max bounds of the Testdate
column; none when no timestamp exists (min() is then NaT and .date()
raises). -/
def dateBounds (df : DF) : Option (ℤ × ℤ) :=
  match (df.rows.filterMap rowDate).min?, (df.rows.filterMap rowDate).max? with
  | some lo, some hi => some (lo, hi)
  | _, _ => none

/-- dashboard.py lines 98-108: the slider range is user-chosen only when the
x axis is Testdate; otherwise the full bounds are returned unconditionally. -/
def date_slider (df : DF) (x_axis : String) (user : ℤ × ℤ) : Option (ℤ × ℤ) :=
  (dateBounds df).map fun b => if x_axis = "Testdate" then user else b

/-- The figure specification: the arguments the dashboard hands to the
plotting library, plus the layout overrides. -/
structure Figure where
  kind : String
  data : DF
  x : String
  y : String
  color : String
  facet_col : Option String
  title : Option String := none
  height : Option Nat := none
deriving DecidableEq, Repr

/-- Whether every axis, color and facet argument names a column of the
frame. -/
def pxValid (df : DF) (x_axis y_axis color_by : String) (fac : Option String) :
    Bool :=
  (df.cols.contains x_axis && df.cols.contains y_axis
      && df.cols.contains color_by)
    && (match fac with | some f => df.cols.contains f | none => true)

/-- Plotly express raises ValueError when a named axis, color or facet is
not a column of the data frame; otherwise it builds the figure. -/
def pxChart (kind : String) (df : DF) (x_axis y_axis color_by : String)
    (fac : Option String) : Except String Figure :=
  if pxValid df x_axis y_axis color_by fac then
    Except.ok { kind := kind, data := df, x := x_axis, y := y_axis,
                color := color_by, facet_col := fac }
  else Except.error "ValueError"

/-- dashboard.py line 210. -/
def line_chart (df : DF) (x_axis y_axis color_by : String) :
    Except String Figure :=
  pxChart "line" df x_axis y_axis color_by none

/-- dashboard.py line 213. -/
def scatter_plot (df : DF) (x_axis y_axis color_by : String) :
    Except String Figure :=
  pxChart "scatter" df x_axis y_axis color_by none

/-- dashboard.py line 216. -/
def box_plot (df : DF) (x_axis y_axis color_by : String) :
    Except String Figure :=
  pxChart "box" df x_axis y_axis color_by none

/-- dashboard.py line 219. -/
def violin_plot (df : DF) (x_axis y_axis color_by : String) :
    Except String Figure :=
  pxChart "violin" df x_axis y_axis color_by none

/-- dashboard.py lines 221-226: the bar chart facets by Assay unless Assay
is itself the x axis. -/
def bar_chart (df : DF) (x_axis y_axis color_by : String) :
    Except String Figure :=
  pxChart "bar" df x_axis y_axis color_by
    (if x_axis ≠ "Assay" then some "Assay" else none)

/-- dashboard.py line 145 / 191: fig.update_layout(title=..., height=...). -/
def update_layout (f : Figure) (t : String) (h : Nat) : Figure :=
  { f with title := some t, height := some h }

/-- The user-controlled inputs of one pre-defined chart block. -/
structure ChartParams where
  show_chart : Bool
  x_axis : String
  y_axis : String
  group_by : List String
  color_by : String
  user_range : ℤ × ℤ
  title : String
  height : Nat

/-- The pipeline of one pre-defined chart block (dashboard.py lines
130-145): date selection, date filtering, aggregation, chart construction
and layout overrides, with every step that can raise composed in Except. -/
def chartPipeline (df : DF) (p : ChartParams)
    (chart_func : DF → String → String → String → Except String Figure) :
    Except String Figure := do
  let range ← match date_slider df p.x_axis p.user_range with
              | some r => Except.ok r
              | none => Except.error "NaT"
  let filtered := filter_by_date df range.1 range.2
  let agg ← aggregate filtered p.group_by p.y_axis
  let fig ← chart_func agg p.x_axis p.y_axis p.color_by
  Except.ok (update_layout fig p.title p.height)

/-- What one chart block contributes to the page. -/
inductive BlockResult where
  | figure (f : Figure)
  | warning
  | hidden
deriving DecidableEq, Repr

/-- dashboard.py lines 126-149: the whole block body runs inside try/except;
any raising step yields the generic warning instead of a figure. A block
whose checkbox is off renders nothing. -/
def create_chart (df : DF) (p : ChartParams)
    (chart_func : DF → String → String → String → Except String Figure) :
    BlockResult :=
  if p.show_chart then
    match chartPipeline df p chart_func with
    | Except.ok f => BlockResult.figure f
    | Except.error _ => BlockResult.warning
  else BlockResult.hidden

/-- The user-controlled inputs of the custom chart block. -/
structure CustomParams where
  show_chart : Bool
  chart : String
  x_axis : String
  y_axis : String
  group_by : List String
  color_by : String
  user_range : ℤ × ℤ
  title : String
  height : Nat

/-- dashboard.py lines 181-190: the chart-type dispatch of custom_chart.
For a string outside the five the local fig stays unbound, which raises. -/
def customDispatch (chart : String) (df : DF) (x_axis y_axis color_by : String) :
    Except String Figure :=
  if chart = "Line Chart" then line_chart df x_axis y_axis color_by
  else if chart = "Bar Chart" then bar_chart df x_axis y_axis color_by
  else if chart = "Box Plot" then box_plot df x_axis y_axis color_by
  else if chart = "Violin Plot" then violin_plot df x_axis y_axis color_by
  else if chart = "Scatter Plot" then scatter_plot df x_axis y_axis color_by
  else Except.error "UnboundLocalError"

/-- The pipeline of the custom chart block (dashboard.py lines 163-191). -/
def customPipeline (df : DF) (p : CustomParams) : Except String Figure := do
  let range ← match date_slider df p.x_axis p.user_range with
              | some r => Except.ok r
              | none => Except.error "NaT"
  let filtered := filter_by_date df range.1 range.2
  let ay ← customAggregate filtered p.group_by p.y_axis
  let fig ← customDispatch p.chart ay.1 p.x_axis ay.2 p.color_by
  Except.ok (update_layout fig p.title p.height)

/-- dashboard.py lines 158-195: the custom block body runs inside
try/except; any raising step yields the generic warning. -/
def custom_chart (df : DF) (p : CustomParams) : BlockResult :=
  if p.show_chart then
    match customPipeline df p with
    | Except.ok f => BlockResult.figure f
    | Except.error _ => BlockResult.warning
  else BlockResult.hidden

/-- dashboard.py lines 243-247: the four summary metrics — sample count,
distinct assay count, minimum GMT, maximum GMT. -/
def metrics (df : DF) : Nat × Nat × Option ℚ × Option ℚ :=
  (df.rows.length,
   ((df.rows.filterMap fun r => cellOf r "Assay").dedup).length,
   ((df.rows.filterMap fun r =>
      match cellOf r "GMT" with
      | some (Val.vnum q) => some q
      | _ => none)).min?,
   ((df.rows.filterMap fun r =>
      match cellOf r "GMT" with
      | some (Val.vnum q) => some q
      | _ => none)).max?)

/-- One render pass (dashboard.py lines 242-263): the four metrics plus the
pre-defined chart blocks, each block run independently on the same working
table. -/
def renderPass (df : DF)
    (ps : List (ChartParams × (DF → String → String → String → Except String Figure))) :
    (Nat × Nat × Option ℚ × Option ℚ) × List BlockResult :=
  (metrics df, ps.map fun pc => create_chart df pc.1 pc.2)

/-- dashboard.py lines 232-236: one upload event of the session loop. The
file is parsed and stored only when a file is present and no table is loaded
yet; the parser itself (load_data) is abstract here, the session logic does
not inspect its output. -/
def uploadStep (load : String → DF) (state : Option DF)
    (uploaded_file : Option String) : Option DF :=
  match uploaded_file, state with
  | some f, none => some (load f)
  | _, _ => state

/-- The numeric value of a cell, with zero for an absent or non-numeric
cell; used only to state mean values (the pipeline raises instead). -/
def cellNum (r : Row) (c : String) : ℚ :=
  match cellOf r c with
  | some (Val.vnum q) => q
  | _ => 0

/-- Whether a cell holds a numeric value. -/
def isNum (r : Row) (c : String) : Bool :=
  match cellOf r c with
  | some (Val.vnum _) => true
  | _ => false

/-- A concrete working table with two rows, both taken on calendar day 100,
with the same Assay and opposite Results. -/
def exRow1 : Row :=
  [("Testdate", Val.vdate 100 0), ("Assay", Val.vstr "A"),
   ("Result", Val.vstr "Pos"), ("GMT", Val.vnum 10), ("Age Days", Val.vnum 7),
   ("Age Weeks", Val.vnum 1), ("Min Titer", Val.vnum 2),
   ("Max Titer", Val.vnum 8), ("Mean Titer", Val.vnum 5)]

/-- The second concrete row. -/
def exRow2 : Row :=
  [("Testdate", Val.vdate 100 0), ("Assay", Val.vstr "A"),
   ("Result", Val.vstr "Neg"), ("GMT", Val.vnum 20), ("Age Days", Val.vnum 14),
   ("Age Weeks", Val.vnum 2), ("Min Titer", Val.vnum 3),
   ("Max Titer", Val.vnum 9), ("Mean Titer", Val.vnum 7)]

/-- The concrete working table. -/
def exDF : DF :=
  { cols := ["Testdate", "Assay", "Result", "GMT", "Age Days", "Age Weeks",
             "Min Titer", "Max Titer", "Mean Titer"],
    rows := [exRow1, exRow2] }

/-- Concrete block parameters with an empty grouping. -/
def exP : ChartParams :=
  { show_chart := true, x_axis := "Testdate", y_axis := "GMT", group_by := [],
    color_by := "Assay", user_range := (100, 100), title := "t", height := 500 }

/-- Concrete block parameters naming a grouping column that does not exist,
so that the aggregation step raises. -/
def exBadP : ChartParams :=
  { show_chart := true, x_axis := "Testdate", y_axis := "GMT",
    group_by := ["Nope"], color_by := "Assay", user_range := (100, 100),
    title := "t", height := 500 }

/-- The arithmetic mean of a column over the rows of one group, stated over
the raw input rows. -/
def groupMean (gb : List String) (rows : List Row) (k : List Val) (c : String) :
    ℚ :=
  ((groupRows gb rows k).map fun r => cellNum r c).sum
    / ((groupRows gb rows k).length : ℚ)

/-- The mean-aggregated output row of one group: its key cells followed by
the mean of every aggregation target. -/
def meanRow (gb : List String) (rows : List Row) (cs : List String)
    (k : List Val) : Row :=
  keyCells gb k ++ cs.map fun c => (c, Val.vnum (groupMean gb rows k c))

/-- Concrete custom block parameters (hidden block). -/
def exCustomP : CustomParams :=
  { show_chart := false, chart := "Line Chart", x_axis := "Testdate",
    y_axis := "GMT", group_by := [], color_by := "Assay",
    user_range := (100, 100), title := "t", height := 500 }

/-- A duplicate-free sublist of the options list with the extra "Result"
appended is still a sublist of the four-element base enumeration. -/
theorem nodup_sublist_of_appended {s : List String}
    (h : s.Sublist (["Testdate", "GMT", "Assay", "Result"] ++ ["Result"]))
    (hnd : s.Nodup) : s.Sublist ["Testdate", "GMT", "Assay", "Result"] := by
  rcases List.sublist_append_iff.mp h with ⟨l₁, l₂, rfl, h₁, h₂⟩
  rcases List.sublist_singleton.mp h₂ with rfl | rfl
  · simpa using h₁
  · have hmem : "Result" ∉ l₁ := by
      rcases List.nodup_append.mp hnd with ⟨-, -, hdisj⟩
      intro hr
      exact hdisj hr (by simp)
    have hfilter : l₁.filter (fun a => !(a == "Result")) = l₁ :=
      List.filter_eq_self.mpr (by
        intro a ha
        simp only [Bool.not_eq_true']
        exact beq_eq_false_iff_ne.mpr fun hEq => hmem (by rw [hEq] at ha; exact ha))
    have h₃ : l₁.Sublist ["Testdate", "GMT", "Assay"] := by
      have := h₁.filter (fun a => !(a == "Result"))
      rw [hfilter] at this
      simpa using this
    have : (l₁ ++ ["Result"]).Sublist (["Testdate", "GMT", "Assay"] ++ ["Result"]) :=
      h₃.append (List.Sublist.refl _)
    simpa using this

/-- C1: the group-by option list is the four-element enumeration
{Testdate, GMT, Assay, Result}, extended with "Result" exactly when the
y axis is "Results Count" and unchanged otherwise; and any selection the
multiselect can return is an order-preserving, duplicate-free subset of that
four-element enumeration. -/
theorem select_grouping_subset_enum (y_axis : String) (sel : List String)
    (hsel : multiselect_returns (select_grouping_options y_axis) sel) :
    select_grouping_options y_axis =
      (if y_axis = "Results Count"
        then ["Testdate", "GMT", "Assay", "Result"] ++ ["Result"]
        else ["Testdate", "GMT", "Assay", "Result"])
    ∧ sel.Sublist ["Testdate", "GMT", "Assay", "Result"] ∧ sel.Nodup := by
  obtain ⟨hsub, hnd⟩ := hsel
  refine ⟨rfl, ?_, hnd⟩
  by_cases hy : y_axis = "Results Count"
  · rw [select_grouping_options, if_pos hy] at hsub
    exact nodup_sublist_of_appended hsub hnd
  · rw [select_grouping_options, if_neg hy] at hsub
    exact hsub

/-- Witness for C1 at a concrete y axis and selection. -/
theorem select_grouping_subset_enum_witness :
    multiselect_returns (select_grouping_options "Results Count") ["GMT", "Result"]
    ∧ ["GMT", "Result"].Sublist ["Testdate", "GMT", "Assay", "Result"] := by
  have h : multiselect_returns (select_grouping_options "Results Count")
      ["GMT", "Result"] := by
    constructor
    · decide
    · decide
  exact ⟨h, (select_grouping_subset_enum "Results Count" ["GMT", "Result"] h).2.1⟩

/-- C3: once a table is loaded the session keeps it: a single upload event
over a loaded state is the identity whatever the event carries, and hence
any sequence of later upload events leaves the stored table unchanged. -/
theorem loaded_table_stable (load : String → DF) (t : DF)
    (events : List (Option String)) :
    (∀ u, uploadStep load (some t) u = some t)
    ∧ List.foldl (uploadStep load) (some t) events = some t := by
  have hstep : ∀ u, uploadStep load (some t) u = some t := by
    intro u
    cases u <;> rfl
  refine ⟨hstep, ?_⟩
  induction events with
  | nil => rfl
  | cons e es ih => rw [List.foldl_cons, hstep e, ih]

/-- A successfully built figure carries exactly the facet argument it was
given. -/
theorem pxChart_facet {kind : String} {df : DF} {x_axis y_axis color_by : String}
    {fac : Option String} {f : Figure}
    (h : pxChart kind df x_axis y_axis color_by fac = Except.ok f) :
    f.facet_col = fac := by
  unfold pxChart at h
  by_cases hv : pxValid df x_axis y_axis color_by fac = true
  · rw [if_pos hv] at h
    cases h
    rfl
  · rw [if_neg hv] at h
    cases h

/-- C9: a successfully built bar chart facets by Assay exactly when Assay is
not the x axis. -/
theorem bar_chart_facet (df : DF) (x_axis y_axis color_by : String)
    (f : Figure) (h : bar_chart df x_axis y_axis color_by = Except.ok f) :
    f.facet_col = if x_axis = "Assay" then none else some "Assay" := by
  unfold bar_chart at h
  rw [pxChart_facet h]
  by_cases hx : x_axis = "Assay" <;> simp [hx]

/-- Witness for C9 at concrete frames: x = Assay gives no facet, x =
Testdate facets by Assay. -/
theorem bar_chart_facet_witness :
    (∃ f, bar_chart exDF "Assay" "GMT" "Result" = Except.ok f
      ∧ f.facet_col = none)
    ∧ (∃ g, bar_chart exDF "Testdate" "GMT" "Result" = Except.ok g
      ∧ g.facet_col = some "Assay") := by
  constructor
  · refine ⟨_, rfl, ?_⟩
    have h := bar_chart_facet exDF "Assay" "GMT" "Result" _ rfl
    rw [h]
    simp
  · refine ⟨_, rfl, ?_⟩
    have h := bar_chart_facet exDF "Testdate" "GMT" "Result" _ rfl
    rw [h]
    simp

/-- C7: with an empty grouping the aggregation step is the identity for
every y axis, and the chart constructor then receives exactly the
date-filtered row-level table. -/
theorem aggregate_empty_identity (df : DF) (p : ChartParams)
    (chart_func : DF → String → String → String → Except String Figure)
    (y_axis : String) (r : ℤ × ℤ)
    (hgb : p.group_by = [])
    (hr : date_slider df p.x_axis p.user_range = some r) :
    aggregate df [] y_axis = Except.ok df
    ∧ chartPipeline df p chart_func =
        (chart_func (filter_by_date df r.1 r.2) p.x_axis p.y_axis p.color_by).map
          fun fig => update_layout fig p.title p.height := by
  constructor
  · rfl
  · unfold chartPipeline
    rw [hr, hgb]
    show (chart_func (filter_by_date df r.1 r.2) p.x_axis p.y_axis p.color_by
        >>= fun fig => Except.ok (update_layout fig p.title p.height)) = _
    cases chart_func (filter_by_date df r.1 r.2) p.x_axis p.y_axis p.color_by <;> rfl

/-- Witness for C7 at the concrete table and an empty grouping. -/
theorem aggregate_empty_identity_witness :
    aggregate exDF [] "GMT" = Except.ok exDF
    ∧ chartPipeline exDF exP line_chart =
        (line_chart (filter_by_date exDF 100 100) "Testdate" "GMT" "Assay").map
          fun fig => update_layout fig "t" 500 :=
  aggregate_empty_identity exDF exP line_chart "GMT" (100, 100) rfl (by decide)

unseal List.merge List.mergeSort in
/-- C2 counterexample: in the custom builder with grouping [Assay], the y
axis "Result" — which is not "Results Count" — takes the counting branch and
emits the synthetic count column, while the aggregation the claim describes
for that y axis (a per-group mean of the Result column) raises instead. -/
theorem custom_agg_counterexample :
    customAggregate exDF ["Assay"] "Result"
      = Except.ok ({ cols := ["Assay", "Results Count"],
                     rows := [[("Assay", Val.vstr "A"),
                               ("Results Count", Val.vnum 2)]] }, "Results Count")
    ∧ ("Result" : String) ≠ "Results Count"
    ∧ customAggregateClaimed exDF ["Assay"] "Result" = Except.error "TypeError" := by
  refine ⟨by rfl, by decide, by rfl⟩

/-- C2 amended: for every table and non-empty grouping of existing columns,
the custom builder counts exactly when the selected y axis is "Result" — and
its output then coincides with the pre-defined flow's "Results Count"
aggregation, with the y axis renamed to "Results Count" — while any other
y axis is aggregated by the same per-group mean machinery applied to only
the selected column. -/
theorem custom_agg_amended (df : DF) (gb : List String) (y_axis : String)
    (hgb : gb ≠ []) (hcols : gb.all df.cols.contains = true) :
    (y_axis = "Result" →
      ∃ out, customAggregate df gb y_axis = Except.ok (out, "Results Count")
        ∧ aggregate df gb "Results Count" = Except.ok out)
    ∧ (y_axis ≠ "Result" →
      customAggregate df gb y_axis =
        (meanAgg gb [y_axis] df).map fun out => (out, y_axis)) := by
  constructor
  · intro hy
    refine ⟨sizeAgg gb df, ?_, ?_⟩
    · unfold customAggregate
      rw [if_neg hgb, if_pos hcols, if_pos hy]
    · unfold aggregate
      rw [if_neg hgb, if_pos hcols, if_pos rfl]
  · intro hy
    unfold customAggregate
    rw [if_neg hgb, if_pos hcols, if_neg hy]

/-- The date-filter predicate holds exactly on the rows whose Testdate
timestamp has its calendar day inside the range, whatever its time of day. -/
theorem inDateRange_iff (lo hi : ℤ) (r : Row) :
    inDateRange lo hi r = true
    ↔ ∃ d t, cellOf r "Testdate" = some (Val.vdate d t) ∧ lo ≤ d ∧ d ≤ hi := by
  unfold inDateRange rowDate
  cases h : cellOf r "Testdate" with
  | none => simp
  | some v =>
    cases v with
    | vstr s => simp
    | vnum q => simp
    | vdate d t =>
      simp only [Option.some.injEq, Val.vdate.injEq, decide_eq_true_eq]
      constructor
      · intro hd
        exact ⟨d, t, ⟨rfl, rfl⟩, hd⟩
      · rintro ⟨d', t', ⟨hd, -⟩, h1, h2⟩
        rw [hd]
        exact ⟨h1, h2⟩

/-- C8: the date filter keeps exactly the rows whose Testdate calendar day
lies in the inclusive range, ignoring the time of day; filtering the
filtered table again by the same or a wider range changes nothing; and
filtering by the table's own full bounds — the range used whenever the x
axis is not the date column — keeps every row. -/
theorem filter_by_date_spec (df : DF) (lo hi lo' hi' : ℤ) (x_axis : String)
    (user : ℤ × ℤ) :
    (∀ r, r ∈ (filter_by_date df lo hi).rows ↔
      r ∈ df.rows ∧ ∃ d t, cellOf r "Testdate" = some (Val.vdate d t)
        ∧ lo ≤ d ∧ d ≤ hi)
    ∧ (lo' ≤ lo → hi ≤ hi' →
        filter_by_date (filter_by_date df lo hi) lo' hi'
          = filter_by_date df lo hi)
    ∧ ((∀ r ∈ df.rows, (rowDate r).isSome) → dateBounds df = some (lo, hi) →
        filter_by_date df lo hi = df)
    ∧ (x_axis ≠ "Testdate" → date_slider df x_axis user = dateBounds df) := by
  refine ⟨?_, ?_, ?_, ?_⟩
  · intro r
    simp only [filter_by_date, List.mem_filter, inDateRange_iff]
  · intro hlo hhi
    unfold filter_by_date
    simp only [DF.mk.injEq, true_and]
    rw [List.filter_filter]
    apply List.filter_congr
    intro r hr
    cases hp : inDateRange lo hi r with
    | false => simp [hp]
    | true =>
      obtain ⟨d, t, hd, h1, h2⟩ := (inDateRange_iff lo hi r).mp hp
      have : inDateRange lo' hi' r = true :=
        (inDateRange_iff lo' hi' r).mpr ⟨d, t, hd, le_trans hlo h1, le_trans h2 hhi⟩
      simp [this]
  · intro hdates hbounds
    unfold dateBounds at hbounds
    cases hmin : (df.rows.filterMap rowDate).min? with
    | none => rw [hmin] at hbounds; cases hbounds
    | some a =>
      cases hmax : (df.rows.filterMap rowDate).max? with
      | none => rw [hmin, hmax] at hbounds; cases hbounds
      | some b =>
        rw [hmin, hmax] at hbounds
        rw [Option.some.injEq, Prod.mk.injEq] at hbounds
        obtain ⟨ha, hb⟩ := hbounds
        rw [ha] at hmin
        rw [hb] at hmax
        have hkeep : df.rows.filter (inDateRange lo hi) = df.rows := by
          apply List.filter_eq_self.mpr
          intro r hr
          obtain ⟨d, hd⟩ := Option.isSome_iff_exists.mp (hdates r hr)
          have hdmem : d ∈ df.rows.filterMap rowDate :=
            List.mem_filterMap.mpr ⟨r, hr, hd⟩
          have h1 : lo ≤ d :=
            (List.le_min?_iff (fun a b c => le_min_iff) hmin).mp (le_refl lo) d hdmem
          have h2 : d ≤ hi :=
            (List.max?_le_iff (fun a b c => max_le_iff) hmax).mp (le_refl hi) d hdmem
          unfold rowDate at hd
          cases hcell : cellOf r "Testdate" with
          | none => rw [hcell] at hd; cases hd
          | some v =>
            cases v with
            | vstr s => rw [hcell] at hd; cases hd
            | vnum q => rw [hcell] at hd; cases hd
            | vdate d' t' =>
              rw [hcell] at hd
              injection hd with hd'
              subst hd'
              exact (inDateRange_iff lo hi r).mpr ⟨d', t', hcell, h1, h2⟩
        cases df with
        | mk cols rows =>
          unfold filter_by_date
          simp only [DF.mk.injEq, true_and]
          exact hkeep
  · intro hx
    unfold date_slider
    cases hb : dateBounds df with
    | none => rfl
    | some b => simp [hx]

/-- Witness for C8 at the concrete table: re-filtering by a wider range is
the identity, the full bounds keep every row, and a non-date x axis uses the
full bounds. -/
theorem filter_by_date_spec_witness :
    filter_by_date (filter_by_date exDF 100 100) 99 101
      = filter_by_date exDF 100 100
    ∧ filter_by_date exDF 100 100 = exDF
    ∧ date_slider exDF "Assay" (0, 0) = dateBounds exDF := by
  obtain ⟨h1, h2, h3, h4⟩ := filter_by_date_spec exDF 100 100 99 101 "Assay" (0, 0)
  exact ⟨h2 (by decide) (by decide), h3 (by decide) (by decide), h4 (by decide)⟩

/-- Witness for the amended C2 at the concrete table, both branches. -/
theorem custom_agg_amended_witness :
    (∃ out, customAggregate exDF ["Assay"] "Result" = Except.ok (out, "Results Count")
      ∧ aggregate exDF ["Assay"] "Results Count" = Except.ok out)
    ∧ customAggregate exDF ["Assay"] "GMT" =
        (meanAgg ["Assay"] ["GMT"] exDF).map fun out => (out, "GMT") := by
  constructor
  · exact (custom_agg_amended exDF ["Assay"] "Result" (by decide) (by decide)).1 rfl
  · exact (custom_agg_amended exDF ["Assay"] "GMT" (by decide) (by decide)).2 (by decide)

/-- An error anywhere in a visible pre-defined block's pipeline yields the
generic warning. -/
theorem block_warns_on_error (df : DF) (p : ChartParams)
    (chart_func : DF → String → String → String → Except String Figure)
    (e : String) (hshow : p.show_chart = true)
    (herr : chartPipeline df p chart_func = Except.error e) :
    create_chart df p chart_func = BlockResult.warning := by
  unfold create_chart
  rw [hshow, herr]
  rfl

/-- An error anywhere in the visible custom block's pipeline yields the
generic warning. -/
theorem custom_warns_on_error (df : DF) (p : CustomParams) (e : String)
    (hshow : p.show_chart = true)
    (herr : customPipeline df p = Except.error e) :
    custom_chart df p = BlockResult.warning := by
  unfold custom_chart
  rw [hshow, herr]
  rfl

/-- C4: each chart block is exception-free at its boundary — when shown it
yields either a figure or, as soon as any pipeline step fails, the generic
warning, and a hidden block yields nothing — and a render pass computes the
metrics and every block independently: the metrics never depend on any
block's parameters, and block i depends only on its own parameter pair. -/
theorem block_failure_confined (df : DF)
    (ps qs : List (ChartParams × (DF → String → String → String → Except String Figure)))
    (p : ChartParams) (cp : CustomParams)
    (chart_func : DF → String → String → String → Except String Figure)
    (e : String) (i : Nat) :
    (p.show_chart = true → chartPipeline df p chart_func = Except.error e →
      create_chart df p chart_func = BlockResult.warning)
    ∧ ((∃ f, create_chart df p chart_func = BlockResult.figure f)
        ∨ create_chart df p chart_func = BlockResult.warning
        ∨ create_chart df p chart_func = BlockResult.hidden)
    ∧ (cp.show_chart = true → customPipeline df cp = Except.error e →
      custom_chart df cp = BlockResult.warning)
    ∧ ((∃ f, custom_chart df cp = BlockResult.figure f)
        ∨ custom_chart df cp = BlockResult.warning
        ∨ custom_chart df cp = BlockResult.hidden)
    ∧ (renderPass df ps).1 = metrics df
    ∧ (ps[i]? = qs[i]? → (renderPass df ps).2[i]? = (renderPass df qs).2[i]?) := by
  refine ⟨block_warns_on_error df p chart_func e, ?_, custom_warns_on_error df cp e, ?_, rfl, ?_⟩
  · unfold create_chart
    cases hs : p.show_chart with
    | false => right; right; rfl
    | true =>
      cases hpf : chartPipeline df p chart_func with
      | ok f => left; exact ⟨f, rfl⟩
      | error er => right; left; rfl
  · unfold custom_chart
    cases hs : cp.show_chart with
    | false => right; right; rfl
    | true =>
      cases hpf : customPipeline df cp with
      | ok f => left; exact ⟨f, rfl⟩
      | error er => right; left; rfl
  · intro hpq
    unfold renderPass
    simp only [List.getElem?_map, hpq]

/-- Witness for C4: a block whose grouping names a column that does not
exist warns instead of raising past the block. -/
theorem block_failure_confined_witness :
    exBadP.show_chart = true
    ∧ chartPipeline exDF exBadP line_chart = Except.error "KeyError"
    ∧ create_chart exDF exBadP line_chart = BlockResult.warning := by
  refine ⟨rfl, by rfl, ?_⟩
  exact (block_failure_confined exDF [] [] exBadP exCustomP line_chart
    "KeyError" 0).1 rfl (by rfl)

/-- A key is emitted by the grouping exactly when some input row carries
it. -/
theorem mem_groupKeys {gb : List String} {rows : List Row} {k : List Val} :
    k ∈ groupKeys gb rows ↔ ∃ r ∈ rows, keyOf gb r = k := by
  unfold groupKeys
  rw [List.mem_mergeSort, List.mem_dedup, List.mem_map]

/-- The emitted group keys are duplicate-free. -/
theorem nodup_groupKeys (gb : List String) (rows : List Row) :
    (groupKeys gb rows).Nodup :=
  (List.mergeSort_perm _ _).nodup_iff.mpr (List.nodup_dedup _)

/-- Over a duplicate-free key list, the indicator of one contained key sums
to one. -/
theorem sum_indicator_eq_one {α : Type} [DecidableEq α] (a : α) :
    ∀ ks : List α, ks.Nodup → a ∈ ks →
      (ks.map fun k => if a = k then 1 else 0).sum = 1
  | [], _, h => absurd h (List.not_mem_nil a)
  | k :: ks, hnd, h => by
    rcases List.mem_cons.mp h with rfl | h1
    · simp only [List.map_cons, List.sum_cons, if_pos rfl]
      have hz : (ks.map fun x => if a = x then 1 else 0).sum = 0 := by
        apply List.sum_eq_zero
        intro x hx
        rcases List.mem_map.mp hx with ⟨k', hk', rfl⟩
        have hne : a ≠ k' := fun he => (List.nodup_cons.mp hnd).1 (he ▸ hk')
        simp [hne]
      simp [hz]
    · have hk : a ≠ k := fun he => (List.nodup_cons.mp hnd).1 (he ▸ h1)
      simp only [List.map_cons, List.sum_cons, if_neg hk]
      rw [sum_indicator_eq_one a ks (List.nodup_cons.mp hnd).2 h1]

/-- Summing, over a duplicate-free key list covering every element, the
number of occurrences of each key gives the length of the list. -/
theorem sum_countP_eq_length {α : Type} [DecidableEq α] :
    ∀ (l ks : List α), ks.Nodup → (∀ a ∈ l, a ∈ ks) →
      (ks.map fun k => l.countP fun y => decide (y = k)).sum = l.length
  | [], ks, _, _ => by simp
  | a :: l, ks, hnd, hmem => by
    have ih := sum_countP_eq_length l ks hnd
      fun x hx => hmem x (List.mem_cons_of_mem a hx)
    simp only [List.countP_cons, List.sum_map_add, decide_eq_true_eq]
    rw [ih]
    rw [show (ks.map fun k => if a = k then 1 else 0).sum = 1 from
      sum_indicator_eq_one a ks hnd (hmem a (List.mem_cons_self a l))]
    simp [Nat.add_comm]

/-- The group sizes sum to the number of input rows. -/
theorem sum_group_sizes (gb : List String) (rows : List Row) :
    ((groupKeys gb rows).map fun k => (groupRows gb rows k).length).sum
      = rows.length := by
  have hperm : List.Perm
      ((groupKeys gb rows).map fun k => (groupRows gb rows k).length)
      (((rows.map (keyOf gb)).dedup).map fun k =>
        (groupRows gb rows k).length) :=
    (List.mergeSort_perm _ _).map _
  rw [hperm.sum_eq]
  have hlen : ∀ k, (groupRows gb rows k).length
      = (rows.map (keyOf gb)).countP fun y => decide (y = k) := by
    intro k
    unfold groupRows
    rw [← List.countP_eq_length_filter, List.countP_map]
    apply List.countP_congr
    intro r _
    simp [Function.comp]
  simp only [hlen]
  rw [show rows.length = (rows.map (keyOf gb)).length from
    (List.length_map rows (keyOf gb)).symm]
  exact sum_countP_eq_length (rows.map (keyOf gb)) _ (List.nodup_dedup _)
    fun a ha => List.mem_dedup.mpr ha

/-- C5: with a non-empty grouping over existing columns, the Results Count
aggregation emits exactly one row per distinct group key — the emitted keys
are duplicate-free and are exactly the keys occurring among the input rows —
each emitted count is the number of input rows sharing that key, and the
counts sum to the total number of input rows. -/
theorem results_count_correct (df : DF) (gb : List String)
    (hgb : gb ≠ []) (hcols : gb.all df.cols.contains = true) :
    aggregate df gb "Results Count" = Except.ok (sizeAgg gb df)
    ∧ (sizeAgg gb df).rows = (groupKeys gb df.rows).map (fun k =>
        keyCells gb k ++ [("Results Count",
          Val.vnum (((df.rows.filter fun r => decide (keyOf gb r = k)).length : ℚ)))])
    ∧ (groupKeys gb df.rows).Nodup
    ∧ (∀ k, k ∈ groupKeys gb df.rows ↔ ∃ r ∈ df.rows, keyOf gb r = k)
    ∧ ((groupKeys gb df.rows).map fun k =>
        (df.rows.filter fun r => decide (keyOf gb r = k)).length).sum
      = df.rows.length := by
  refine ⟨?_, rfl, nodup_groupKeys gb df.rows, fun k => mem_groupKeys,
    sum_group_sizes gb df.rows⟩
  unfold aggregate
  rw [if_neg hgb, if_pos hcols, if_pos rfl]

/-- Witness for C5 at the concrete table: the aggregation succeeds and the
group sizes sum to the two input rows; moreover the single emitted group is
the Assay A group with count 2. -/
theorem results_count_correct_witness :
    aggregate exDF ["Assay"] "Results Count" = Except.ok (sizeAgg ["Assay"] exDF)
    ∧ ((groupKeys ["Assay"] exDF.rows).map fun k =>
        (exDF.rows.filter fun r => decide (keyOf ["Assay"] r = k)).length).sum
      = exDF.rows.length := by
  obtain ⟨h1, -, -, -, h5⟩ :=
    results_count_correct exDF ["Assay"] (by decide) (by decide)
  exact ⟨h1, h5⟩

/-- Mapping a fallible step that succeeds on every element succeeds with the
pointwise results. -/
theorem mapM_ok {α β : Type} (f : α → Except String β) (g : α → β) :
    ∀ l : List α, (∀ a ∈ l, f a = Except.ok (g a)) →
      l.mapM f = Except.ok (l.map g)
  | [], _ => rfl
  | a :: l, h => by
    rw [List.mapM_cons, h a (List.mem_cons_self a l),
      mapM_ok f g l fun x hx => h x (List.mem_cons_of_mem a hx)]
    rfl

/-- A lookup skips leading cells whose column names all differ from the
target. -/
theorem lookup_append_right (c : String) :
    ∀ l₁ l₂ : Row, (∀ p ∈ l₁, p.1 ≠ c) →
      List.lookup c (l₁ ++ l₂) = List.lookup c l₂
  | [], l₂, _ => rfl
  | (a, v) :: l₁, l₂, h => by
    have ha : (c == a) = false := by
      have hne := h (a, v) (List.mem_cons_self _ _)
      exact beq_eq_false_iff_ne.mpr fun he => hne he.symm
    simp only [List.cons_append, List.lookup, ha]
    exact lookup_append_right c l₁ l₂ fun p hp => h p (List.mem_cons_of_mem _ hp)

/-- A lookup in an association list built by pairing each column with a
value finds that value. -/
theorem lookup_map_pair (g : String → Val) :
    ∀ (cs : List String) (c : String), c ∈ cs →
      List.lookup c (cs.map fun x => (x, g x)) = some (g c)
  | [], c, h => absurd h (List.not_mem_nil c)
  | a :: cs, c, h => by
    by_cases hc : c = a
    · subst hc
      simp [List.lookup]
    · have hmem : c ∈ cs := by
        rcases List.mem_cons.mp h with h1 | h1
        · exact absurd h1 hc
        · exact h1
      have ha : (c == a) = false := beq_eq_false_iff_ne.mpr hc
      simp only [List.map_cons, List.lookup, ha]
      exact lookup_map_pair g cs c hmem

/-- A member of a group is a member of the input rows. -/
theorem mem_of_mem_groupRows {gb : List String} {rows : List Row}
    {k : List Val} {r : Row} (h : r ∈ groupRows gb rows k) : r ∈ rows :=
  List.mem_of_mem_filter h

/-- With every aggregation target present, numeric and not a grouping key,
the mean aggregation succeeds and emits one mean row per group key. -/
theorem meanAgg_ok (df : DF) (gb cs : List String)
    (htargets : (cs.all fun c => df.cols.contains c && !(gb.contains c)) = true)
    (hnum : ∀ r ∈ df.rows, ∀ c ∈ cs, isNum r c = true) :
    meanAgg gb cs df = Except.ok
      { cols := gb ++ cs,
        rows := (groupKeys gb df.rows).map (meanRow gb df.rows cs) } := by
  have hnumCell : ∀ r ∈ df.rows, ∀ c ∈ cs,
      numCell r c = Except.ok (cellNum r c) := by
    intro r hr c hc
    have h2 := hnum r hr c hc
    unfold isNum at h2
    unfold numCell cellNum
    cases hcell : cellOf r c with
    | none => rw [hcell] at h2; cases h2
    | some v =>
      cases v with
      | vstr s => rw [hcell] at h2; cases h2
      | vnum q => rfl
      | vdate d t => rw [hcell] at h2; cases h2
  have hcolMean : ∀ (k : List Val), ∀ c ∈ cs,
      colMean (groupRows gb df.rows k) c
        = Except.ok (groupMean gb df.rows k c) := by
    intro k c hc
    unfold colMean groupMean
    rw [mapM_ok (fun r => numCell r c) (fun r => cellNum r c)
      (groupRows gb df.rows k)
      fun r hr => hnumCell r (mem_of_mem_groupRows hr) c hc]
    simp [Except.map, List.length_map]
  have hinner : ∀ k : List Val,
      (cs.mapM fun c => (colMean (groupRows gb df.rows k) c).map fun m =>
        (c, Val.vnum m))
        = Except.ok (cs.map fun c => (c, Val.vnum (groupMean gb df.rows k c))) := by
    intro k
    apply mapM_ok
    intro c hc
    rw [hcolMean k c hc]
    rfl
  unfold meanAgg
  rw [if_pos htargets]
  rw [mapM_ok _ (meanRow gb df.rows cs) _ fun k _ => by rw [hinner k]; rfl]
  rfl

/-- The mean cell of an aggregated row: the key cells are skipped because the
target column is not a grouping column, and the mean cells hold the group
means. -/
theorem meanRow_cell (gb cs : List String) (rows : List Row) (k : List Val)
    (c : String) (hc : c ∈ cs) (hnotgb : c ∉ gb) :
    cellOf (meanRow gb rows cs k) c
      = some (Val.vnum (groupMean gb rows k c)) := by
  unfold meanRow cellOf
  rw [lookup_append_right c (keyCells gb k) _ fun p hp => by
    intro he
    exact hnotgb (he ▸ (List.of_mem_zip hp).1)]
  exact lookup_map_pair (fun c => Val.vnum (groupMean gb rows k c)) cs c hc

/-- C6: with a non-empty grouping over existing columns and a y axis other
than Results Count, the pre-defined aggregation succeeds and emits one row
per distinct group key, in which each of the five fixed aggregation targets
holds the arithmetic mean of that column over the input rows of the group. -/
theorem mean_agg_correct (df : DF) (gb : List String) (y_axis : String)
    (hgb : gb ≠ []) (hcols : gb.all df.cols.contains = true)
    (hy : y_axis ≠ "Results Count")
    (htargets : (aggColumns.all fun c =>
      df.cols.contains c && !(gb.contains c)) = true)
    (hnum : (df.rows.all fun r => aggColumns.all fun c => isNum r c) = true) :
    aggregate df gb y_axis = Except.ok
      { cols := gb ++ aggColumns,
        rows := (groupKeys gb df.rows).map (meanRow gb df.rows aggColumns) }
    ∧ ∀ k ∈ groupKeys gb df.rows, ∀ c ∈ aggColumns,
        cellOf (meanRow gb df.rows aggColumns k) c
          = some (Val.vnum (groupMean gb df.rows k c)) := by
  have hnum' : ∀ r ∈ df.rows, ∀ c ∈ aggColumns, isNum r c = true := by
    intro r hr c hc
    exact List.all_eq_true.mp ((List.all_eq_true.mp hnum) r hr) c hc
  constructor
  · unfold aggregate
    rw [if_neg hgb, if_pos hcols, if_neg hy]
    exact meanAgg_ok df gb aggColumns htargets hnum'
  · intro k _ c hc
    have hcgb : c ∉ gb := by
      have h1 := List.all_eq_true.mp htargets c hc
      rw [Bool.and_eq_true, Bool.not_eq_true'] at h1
      intro hmem
      have h3 : List.elem c gb = true := List.elem_eq_true_of_mem hmem
      have h4 : List.elem c gb = false := h1.2
      rw [h4] at h3
      cases h3
    exact meanRow_cell gb aggColumns df.rows k c hc hcgb

/-- Witness for C6 at the concrete table: grouping the two Assay A rows by
Assay with y axis Mean Titer succeeds, and its single output row holds the
mean 6 of the Mean Titer values 5 and 7. -/
theorem mean_agg_correct_witness :
    aggregate exDF ["Assay"] "Mean Titer" = Except.ok
      { cols := ["Assay"] ++ aggColumns,
        rows := (groupKeys ["Assay"] exDF.rows).map
          (meanRow ["Assay"] exDF.rows aggColumns) }
    ∧ groupMean ["Assay"] exDF.rows [Val.vstr "A"] "Mean Titer" = 6 := by
  refine ⟨(mean_agg_correct exDF ["Assay"] "Mean Titer" (by decide) (by decide)
    (by decide) (by decide) (by decide)).1, ?_⟩
  have h1 : groupRows ["Assay"] exDF.rows [Val.vstr "A"] = [exRow1, exRow2] := by
    decide
  have h2 : ([exRow1, exRow2].map fun r => cellNum r "Mean Titer")
      = [(5 : ℚ), 7] := by
    decide
  rw [groupMean, h1, h2]
  norm_num

/-- If the y axis is not a column of the frame, plotly raises. -/
theorem pxChart_missing_y (kind : String) (df : DF)
    (x_axis y_axis color_by : String) (fac : Option String)
    (hy : y_axis ∉ df.cols) :
    pxChart kind df x_axis y_axis color_by fac = Except.error "ValueError" := by
  unfold pxChart
  have hv : ¬(pxValid df x_axis y_axis color_by fac = true) := by
    intro hv
    unfold pxValid at hv
    rw [Bool.and_eq_true, Bool.and_eq_true, Bool.and_eq_true] at hv
    have h3 : List.elem y_axis df.cols = true := hv.1.1.2
    exact hy (List.elem_iff.mp h3)
  rw [if_neg hv]

/-- C10: with a non-empty grouping that does not contain GMT, the
mean-aggregated columns are exactly the grouping fields plus the five fixed
targets, GMT is not among them, so any chart built with y axis GMT from the
aggregated table raises — and, per the block policy, a visible block whose
pipeline raises shows the warning. -/
theorem gmt_not_in_aggregated (df : DF) (gb : List String)
    (hgb : gb ≠ []) (hcols : gb.all df.cols.contains = true)
    (htargets : (aggColumns.all fun c =>
      df.cols.contains c && !(gb.contains c)) = true)
    (hnum : (df.rows.all fun r => aggColumns.all fun c => isNum r c) = true)
    (hgmt : "GMT" ∉ gb) :
    ∃ out, aggregate df gb "GMT" = Except.ok out
      ∧ out.cols = gb ++ aggColumns
      ∧ "GMT" ∉ out.cols
      ∧ (∀ kind x_axis color_by fac,
          pxChart kind out x_axis "GMT" color_by fac = Except.error "ValueError")
      ∧ (∀ (p : ChartParams) chart_func e, p.show_chart = true →
          chartPipeline df p chart_func = Except.error e →
          create_chart df p chart_func = BlockResult.warning) := by
  have hnum' : ∀ r ∈ df.rows, ∀ c ∈ aggColumns, isNum r c = true := by
    intro r hr c hc
    exact List.all_eq_true.mp ((List.all_eq_true.mp hnum) r hr) c hc
  have hagg : aggregate df gb "GMT" = Except.ok
      { cols := gb ++ aggColumns,
        rows := (groupKeys gb df.rows).map (meanRow gb df.rows aggColumns) } := by
    unfold aggregate
    rw [if_neg hgb, if_pos hcols, if_neg (by decide : ¬("GMT" = "Results Count"))]
    exact meanAgg_ok df gb aggColumns htargets hnum'
  refine ⟨_, hagg, rfl, ?_, ?_, ?_⟩
  · intro hmem
    rcases List.mem_append.mp hmem with h1 | h1
    · exact hgmt h1
    · revert h1
      decide
  · intro kind x_axis color_by fac
    apply pxChart_missing_y
    intro hmem
    rcases List.mem_append.mp hmem with h1 | h1
    · exact hgmt h1
    · revert h1
      decide
  · intro p chart_func e hshow herr
    exact block_warns_on_error df p chart_func e hshow herr

/-- Witness for C10 at the concrete table: grouping by Assay with y axis
GMT aggregates to a table without a GMT column, and the line chart built on
it raises. -/
theorem gmt_not_in_aggregated_witness :
    ∃ out, aggregate exDF ["Assay"] "GMT" = Except.ok out
      ∧ "GMT" ∉ out.cols
      ∧ pxChart "line" out "Testdate" "GMT" "Assay" none
          = Except.error "ValueError" := by
  obtain ⟨out, h1, h2, h3, h4, h5⟩ := gmt_not_in_aggregated exDF ["Assay"]
    (by decide) (by decide) (by decide) (by decide) (by decide)
  exact ⟨out, h1, h3, h4 "line" "Testdate" "Assay" none⟩

end Dashboard
